import Mathlib

/-
Verification development for the LintIQ frontend (React SPA).

The embedding below translates, into Lean, the pieces of the repository
that the verified properties concern:

* `frontend/src/lib/api.js` (reproduced in the repository README):
  the axios client wrapper, its request interceptor (bearer-token
  attachment), its response interceptor (401 recovery policy) and the
  browser-local-storage helpers `setAuthToken` / `getAuthToken` /
  `setUser` / `getUser` / `clearAuth`.
* `frontend/src/contexts/AuthContext.jsx`: the session operations
  `initializeAuth` (here `initAuth`), `login`, `register`, `demoLogin`,
  `logout`, `updateUser`, `refreshUser`.
* `frontend/src/components/Dashboard.jsx`: the dashboard handlers
  `handleFileSelect`, `handleDrop`, `handleAnalyze`,
  `handleDemoAnalysis`, `handlePurchaseCredits`.

Modelling conventions.  Browser-local storage is a record with the two
keys the code uses.  JavaScript truthiness of strings ("" is falsy) is
translated explicitly at each use site.  Asynchronous backend calls are
modelled by passing the settled axios outcome (resolved data, or a
rejection carrying an optional HTTP response) as an explicit argument;
the list of network calls an operation issues is returned as an explicit
trace, so that "no request was made" is expressible.  `JSON.stringify` /
`JSON.parse` on the cached profile object are modelled by a concrete
serializer and parser over the profile record (field order as inserted;
string escaping as produced by the builtin: quote, backslash, the
shorthand control escapes, and \u00xx for remaining control characters).
A `JSON.parse` failure, which in JavaScript surfaces as an exception, is
modelled as `none`; no reachable state of the embedded operations stores
a malformed snapshot.
-/

namespace Lintiq

/-! ### Character-level JSON string model -/

/-- Chars of a string literal, used for the fixed serializer segments. -/
def lit (s : String) : List Char := s.data

/-- Lower-case hex digit for a value below 16, as emitted by JSON.stringify
for \u00xx escapes. -/
def hexChar (n : Nat) : Char :=
  if n < 10 then Char.ofNat (48 + n) else Char.ofNat (87 + n)

/-- Value of a hex digit accepted by JSON.parse (upper or lower case). -/
def hexVal? (c : Char) : Option Nat :=
  if 48 ≤ c.toNat ∧ c.toNat ≤ 57 then some (c.toNat - 48)
  else if 97 ≤ c.toNat ∧ c.toNat ≤ 102 then some (c.toNat - 87)
  else if 65 ≤ c.toNat ∧ c.toNat ≤ 70 then some (c.toNat - 55)
  else none

/-- JSON.stringify escaping of one character inside a string literal. -/
def escChar (c : Char) : List Char :=
  if c = '"' then ['\\', '"']
  else if c = '\\' then ['\\', '\\']
  else if c = '\n' then ['\\', 'n']
  else if c = '\t' then ['\\', 't']
  else if c = '\r' then ['\\', 'r']
  else if c = '\x08' then ['\\', 'b']
  else if c = '\x0c' then ['\\', 'f']
  else if c.toNat < 32 then
    ['\\', 'u', '0', '0', hexChar (c.toNat / 16), hexChar (c.toNat % 16)]
  else [c]

/-- JSON.stringify escaping of a whole string body. -/
def escape : List Char → List Char
  | [] => []
  | c :: rest => escChar c ++ escape rest

/-- Prepend a decoded character to the result of parsing the remainder. -/
def consFst (c : Char) : Option (List Char × List Char) → Option (List Char × List Char)
  | some (s, rest) => some (c :: s, rest)
  | none => none

/-- Decode a \uXXXX escape given the four hex digits and the parse of the
remaining input. -/
def parseHex4 (h1 h2 h3 h4 : Char) (k : Option (List Char × List Char)) :
    Option (List Char × List Char) :=
  match hexVal? h1, hexVal? h2, hexVal? h3, hexVal? h4 with
  | some a, some b, some c, some d =>
    consFst (Char.ofNat (((a * 16 + b) * 16 + c) * 16 + d)) k
  | _, _, _, _ => none

/-- JSON.parse of a string-literal body: consumes characters up to and
including the closing quote, decoding escapes; rejects raw control
characters and malformed escapes. -/
def parseStrBody : List Char → Option (List Char × List Char)
  | [] => none
  | '"' :: rest => some ([], rest)
  | '\\' :: '"' :: rest => consFst '"' (parseStrBody rest)
  | '\\' :: '\\' :: rest => consFst '\\' (parseStrBody rest)
  | '\\' :: 'n' :: rest => consFst '\n' (parseStrBody rest)
  | '\\' :: 't' :: rest => consFst '\t' (parseStrBody rest)
  | '\\' :: 'r' :: rest => consFst '\r' (parseStrBody rest)
  | '\\' :: 'b' :: rest => consFst '\x08' (parseStrBody rest)
  | '\\' :: 'f' :: rest => consFst '\x0c' (parseStrBody rest)
  | '\\' :: 'u' :: h1 :: h2 :: h3 :: h4 :: rest => parseHex4 h1 h2 h3 h4 (parseStrBody rest)
  | '\\' :: _ => none
  | c :: rest => if c.toNat < 32 then none else consFst c (parseStrBody rest)

/-- Decimal digits of a natural number, as JSON.stringify renders a
non-negative integer. -/
def natChars (n : Nat) : List Char :=
  if n < 10 then [Char.ofNat (48 + n)]
  else natChars (n / 10) ++ [Char.ofNat (48 + n % 10)]
decreasing_by exact Nat.div_lt_self (by omega) (by omega)

/-- Greedily consume decimal digits, accumulating their value. -/
def takeDigits : Nat → List Char → Nat × List Char
  | acc, [] => (acc, [])
  | acc, c :: rest =>
    if 48 ≤ c.toNat ∧ c.toNat ≤ 57 then takeDigits (acc * 10 + (c.toNat - 48)) rest
    else (acc, c :: rest)

/-- JSON.parse of a non-negative integer: one or more decimal digits. -/
def parseNatCh : List Char → Option (Nat × List Char)
  | [] => none
  | c :: rest =>
    if 48 ≤ c.toNat ∧ c.toNat ≤ 57 then some (takeDigits (c.toNat - 48) rest)
    else none

/-- Whether the input does not continue with a decimal digit. -/
def nonDigitStart : List Char → Bool
  | [] => true
  | c :: _ => if 48 ≤ c.toNat ∧ c.toNat ≤ 57 then false else true

/-- Consume an expected literal segment, or fail. -/
def dropLit : List Char → List Char → Option (List Char)
  | [], l => some l
  | _ :: _, [] => none
  | p :: ps, c :: cs => if c = p then dropLit ps cs else none

/-- JSON rendering of a boolean. -/
def boolChars (b : Bool) : List Char := if b then lit "true" else lit "false"

/-- JSON.parse of a boolean literal. -/
def parseBoolCh (l : List Char) : Option (Bool × List Char) :=
  match dropLit (lit "true") l with
  | some rest => some (true, rest)
  | none =>
    match dropLit (lit "false") l with
    | some rest => some (false, rest)
    | none => none

/-! ### Round-trip facts for the JSON string model -/

theorem charToNat_ofNat (n : Nat) (h : n < 55296) : (Char.ofNat n).toNat = n := by
  unfold Char.ofNat
  rw [dif_pos]
  · rfl
  · unfold Nat.isValidChar
    omega

theorem dropLit_append (p rest : List Char) : dropLit p (p ++ rest) = some rest := by
  induction p with
  | nil => rfl
  | cons c cs ih => simpa [dropLit] using ih

theorem takeDigits_stop (acc : Nat) (rest : List Char) (h : nonDigitStart rest = true) :
    takeDigits acc rest = (acc, rest) := by
  cases rest with
  | nil => rfl
  | cons c cs =>
    simp only [nonDigitStart] at h
    simp only [takeDigits]
    by_cases hP : 48 ≤ c.toNat ∧ c.toNat ≤ 57
    · rw [if_pos hP] at h
      simp at h
    · rw [if_neg hP]

theorem hexVal?_hexChar (n : Nat) (h : n < 16) : hexVal? (hexChar n) = some n := by
  interval_cases n <;> decide

theorem consFst_some (c : Char) (s rest : List Char) :
    consFst c (some (s, rest)) = some (c :: s, rest) := rfl

theorem parseStrBody_quote (l : List Char) : parseStrBody ('"' :: l) = some ([], l) := rfl

theorem parseStrBody_escQuote (l : List Char) :
    parseStrBody ('\\' :: '"' :: l) = consFst '"' (parseStrBody l) := rfl

theorem parseStrBody_escBack (l : List Char) :
    parseStrBody ('\\' :: '\\' :: l) = consFst '\\' (parseStrBody l) := rfl

theorem parseStrBody_escN (l : List Char) :
    parseStrBody ('\\' :: 'n' :: l) = consFst '\n' (parseStrBody l) := rfl

theorem parseStrBody_escT (l : List Char) :
    parseStrBody ('\\' :: 't' :: l) = consFst '\t' (parseStrBody l) := rfl

theorem parseStrBody_escR (l : List Char) :
    parseStrBody ('\\' :: 'r' :: l) = consFst '\r' (parseStrBody l) := rfl

theorem parseStrBody_escB (l : List Char) :
    parseStrBody ('\\' :: 'b' :: l) = consFst '\x08' (parseStrBody l) := rfl

theorem parseStrBody_escF (l : List Char) :
    parseStrBody ('\\' :: 'f' :: l) = consFst '\x0c' (parseStrBody l) := rfl

theorem parseStrBody_escU (a b c d : Char) (l : List Char) :
    parseStrBody ('\\' :: 'u' :: a :: b :: c :: d :: l)
      = parseHex4 a b c d (parseStrBody l) := rfl

set_option maxHeartbeats 1600000 in
theorem parseStrBody_ord (c : Char) (l : List Char)
    (h1 : ¬ c = '"') (h2 : ¬ c = '\\') (h3 : ¬ c.toNat < 32) :
    parseStrBody (c :: l) = consFst c (parseStrBody l) := by
  rw [parseStrBody.eq_def]
  split <;> simp_all

theorem parseHex4_hexChar (x y : Nat) (hx : x < 16) (hy : y < 16)
    (k : Option (List Char × List Char)) :
    parseHex4 '0' '0' (hexChar x) (hexChar y) k
      = consFst (Char.ofNat (x * 16 + y)) k := by
  have h0 : hexVal? '0' = some 0 := rfl
  unfold parseHex4
  rw [h0, hexVal?_hexChar _ hx, hexVal?_hexChar _ hy]
  norm_num

theorem parseStrBody_escape (s rest : List Char) :
    parseStrBody (escape s ++ '"' :: rest) = some (s, rest) := by
  induction s with
  | nil => exact parseStrBody_quote rest
  | cons c cs ih =>
    show parseStrBody ((escChar c ++ escape cs) ++ '"' :: rest) = _
    rw [List.append_assoc]
    unfold escChar
    split_ifs with h1 h2 h3 h4 h5 h6 h7 h8
    · subst h1; rw [List.cons_append, List.cons_append, List.nil_append,
        parseStrBody_escQuote, ih, consFst_some]
    · subst h2; rw [List.cons_append, List.cons_append, List.nil_append,
        parseStrBody_escBack, ih, consFst_some]
    · subst h3; rw [List.cons_append, List.cons_append, List.nil_append,
        parseStrBody_escN, ih, consFst_some]
    · subst h4; rw [List.cons_append, List.cons_append, List.nil_append,
        parseStrBody_escT, ih, consFst_some]
    · subst h5; rw [List.cons_append, List.cons_append, List.nil_append,
        parseStrBody_escR, ih, consFst_some]
    · subst h6; rw [List.cons_append, List.cons_append, List.nil_append,
        parseStrBody_escB, ih, consFst_some]
    · subst h7; rw [List.cons_append, List.cons_append, List.nil_append,
        parseStrBody_escF, ih, consFst_some]
    · -- control character escaped as \u00xx
      have hhi : c.toNat / 16 < 16 := by omega
      have hlo : c.toNat % 16 < 16 := by omega
      simp only [List.cons_append, List.nil_append]
      rw [parseStrBody_escU, parseHex4_hexChar _ _ hhi hlo, ih]
      have hv : c.toNat / 16 * 16 + c.toNat % 16 = c.toNat := by omega
      rw [hv, Char.ofNat_toNat, consFst_some]
    · -- ordinary character, emitted verbatim
      simp only [List.cons_append, List.nil_append]
      rw [parseStrBody_ord c _ h1 h2 h8, ih, consFst_some]

theorem takeDigits_natChars (n : Nat) :
    ∀ acc rest, takeDigits acc (natChars n ++ rest)
      = takeDigits (acc * 10 ^ (natChars n).length + n) rest := by
  induction n using Nat.strong_induction_on with
  | _ n ih =>
    intro acc rest
    by_cases h : n < 10
    · rw [natChars, if_pos h]
      have hc : (Char.ofNat (48 + n)).toNat = 48 + n := charToNat_ofNat _ (by omega)
      simp only [List.cons_append, List.nil_append, takeDigits, hc,
        List.length_singleton, pow_one]
      rw [if_pos (by omega)]
      congr 1
      omega
    · rw [natChars, if_neg h]
      have hd : n / 10 < n := Nat.div_lt_self (by omega) (by omega)
      have hc : (Char.ofNat (48 + n % 10)).toNat = 48 + n % 10 := charToNat_ofNat _ (by omega)
      rw [List.append_assoc, ih (n / 10) hd]
      simp only [List.cons_append, List.nil_append, takeDigits, hc,
        List.length_append, List.length_singleton]
      rw [if_pos (by omega)]
      congr 1
      have h48 : (48 : Nat) + n % 10 - 48 = n % 10 := by omega
      rw [h48, pow_succ]
      have e1 : (acc * 10 ^ (natChars (n / 10)).length + n / 10) * 10 + n % 10
          = acc * (10 ^ (natChars (n / 10)).length * 10) + (10 * (n / 10) + n % 10) := by
        ring
      rw [e1, Nat.div_add_mod]

theorem natChars_shape (n : Nat) :
    ∃ d t, natChars n = d :: t ∧ 48 ≤ d.toNat ∧ d.toNat ≤ 57 := by
  induction n using Nat.strong_induction_on with
  | _ n ih =>
    by_cases h : n < 10
    · refine ⟨Char.ofNat (48 + n), [], by rw [natChars, if_pos h], ?_⟩
      have hc : (Char.ofNat (48 + n)).toNat = 48 + n := charToNat_ofNat _ (by omega)
      omega
    · obtain ⟨d, t, hdt, hlo, hhi⟩ := ih (n / 10) (Nat.div_lt_self (by omega) (by omega))
      exact ⟨d, t ++ [Char.ofNat (48 + n % 10)], by rw [natChars, if_neg h, hdt]; rfl, hlo, hhi⟩

theorem parseNatCh_natChars (n : Nat) (rest : List Char) (h : nonDigitStart rest = true) :
    parseNatCh (natChars n ++ rest) = some (n, rest) := by
  obtain ⟨d, t, hdt, hlo, hhi⟩ := natChars_shape n
  have key : takeDigits 0 (natChars n ++ rest) = (n, rest) := by
    rw [takeDigits_natChars, takeDigits_stop _ _ h, Nat.zero_mul, Nat.zero_add]
  rw [hdt] at key ⊢
  rw [List.cons_append] at key ⊢
  simp only [parseNatCh]
  rw [if_pos (And.intro hlo hhi)]
  simp only [takeDigits] at key
  rw [if_pos (And.intro hlo hhi), Nat.zero_mul, Nat.zero_add] at key
  rw [key]

theorem parseBoolCh_boolChars (b : Bool) (rest : List Char) :
    parseBoolCh (boolChars b ++ rest) = some (b, rest) := by
  cases b with
  | true => simp [boolChars, parseBoolCh, dropLit_append]
  | false =>
    have hmiss : dropLit (lit "true") (lit "false" ++ rest) = none := rfl
    simp [boolChars, parseBoolCh, hmiss, dropLit_append]

/-! ### The cached user profile and its JSON snapshot -/

/-- The user profile record as consumed by the frontend views: the fields the
dashboard and session context read (`username`, `email`, `credits`, `is_pro`,
`analyses_count`, `total_spent`, `created_at`). -/
structure UserProfile where
  username : String
  email : String
  credits : Nat
  is_pro : Bool
  analyses_count : Nat
  total_spent : Nat
  created_at : String
deriving DecidableEq, Repr

/-- Fixed serializer segment preceding the username value. -/
def litUsernameKey : List Char := lit "\x7b\"username\":\""

/-- Fixed serializer segment preceding the email value. -/
def litEmailKey : List Char := lit ",\"email\":\""

/-- Fixed serializer segment preceding the credits value. -/
def litCreditsKey : List Char := lit ",\"credits\":"

/-- Fixed serializer segment preceding the pro flag. -/
def litProKey : List Char := lit ",\"is_pro\":"

/-- Fixed serializer segment preceding the analysis counter. -/
def litAnalysesKey : List Char := lit ",\"analyses_count\":"

/-- Fixed serializer segment preceding the total-spent counter. -/
def litSpentKey : List Char := lit ",\"total_spent\":"

/-- Fixed serializer segment preceding the creation date. -/
def litCreatedKey : List Char := lit ",\"created_at\":\""

/-- JSON.stringify of the profile object: fields in insertion order, strings
escaped as by the builtin. -/
def userChars (u : UserProfile) : List Char :=
  litUsernameKey ++ (escape u.username.data ++ ('"' ::
    (litEmailKey ++ (escape u.email.data ++ ('"' ::
      (litCreditsKey ++ (natChars u.credits ++
        (litProKey ++ (boolChars u.is_pro ++
          (litAnalysesKey ++ (natChars u.analyses_count ++
            (litSpentKey ++ (natChars u.total_spent ++
              (litCreatedKey ++ (escape u.created_at.data ++ ('"' :: ['\x7d']))))))))))))))))

/-- JSON.stringify of the profile object, as the stored string. -/
def stringifyUser (u : UserProfile) : String := String.mk (userChars u)

/-- JSON.parse of a stored profile snapshot (character level). -/
def parseUserCh (l : List Char) : Option UserProfile := do
  let l1 ← dropLit litUsernameKey l
  let (un, l2) ← parseStrBody l1
  let l3 ← dropLit litEmailKey l2
  let (em, l4) ← parseStrBody l3
  let l5 ← dropLit litCreditsKey l4
  let (cr, l6) ← parseNatCh l5
  let l7 ← dropLit litProKey l6
  let (ip, l8) ← parseBoolCh l7
  let l9 ← dropLit litAnalysesKey l8
  let (ac, l10) ← parseNatCh l9
  let l11 ← dropLit litSpentKey l10
  let (ts, l12) ← parseNatCh l11
  let l13 ← dropLit litCreatedKey l12
  let (ca, l14) ← parseStrBody l13
  match l14 with
  | ['\x7d'] => some ⟨String.mk un, String.mk em, cr, ip, ac, ts, String.mk ca⟩
  | _ => none

/-- JSON.parse of a stored profile snapshot. -/
def parseUser (s : String) : Option UserProfile := parseUserCh s.data

theorem nonDigitStart_pro (l : List Char) : nonDigitStart (litProKey ++ l) = true := rfl

theorem nonDigitStart_analyses (l : List Char) :
    nonDigitStart (litAnalysesKey ++ l) = true := rfl

theorem nonDigitStart_spent (l : List Char) : nonDigitStart (litSpentKey ++ l) = true := rfl

theorem nonDigitStart_created (l : List Char) :
    nonDigitStart (litCreatedKey ++ l) = true := rfl

set_option maxHeartbeats 1600000 in
/-- The profile snapshot round-trips through the modelled JSON.stringify and
JSON.parse. -/
theorem parseUser_stringifyUser (u : UserProfile) : parseUser (stringifyUser u) = some u := by
  show parseUserCh (userChars u) = some u
  unfold parseUserCh userChars
  rw [dropLit_append]
  simp only [Option.bind_eq_bind']
  simp only [Option.some_bind]
  rw [parseStrBody_escape]
  simp only [Option.some_bind]
  rw [dropLit_append]
  simp only [Option.some_bind]
  rw [parseStrBody_escape]
  simp only [Option.some_bind]
  rw [dropLit_append]
  simp only [Option.some_bind]
  rw [parseNatCh_natChars _ _ (nonDigitStart_pro _)]
  simp only [Option.some_bind]
  rw [dropLit_append]
  simp only [Option.some_bind]
  rw [parseBoolCh_boolChars]
  simp only [Option.some_bind]
  rw [dropLit_append]
  simp only [Option.some_bind]
  rw [parseNatCh_natChars _ _ (nonDigitStart_spent _)]
  simp only [Option.some_bind]
  rw [dropLit_append]
  simp only [Option.some_bind]
  rw [parseNatCh_natChars _ _ (nonDigitStart_created _)]
  simp only [Option.some_bind]
  rw [dropLit_append]
  simp only [Option.some_bind]
  rw [parseStrBody_escape]
  simp only [Option.some_bind]

/-! ### Browser-local storage and the api.js helper functions -/

/-- The two browser-local-storage keys the client uses: the bearer token
(`lintiq_token`) and the serialized profile snapshot (`lintiq_user`).
`none` models an absent key, matching `localStorage.getItem` returning
null. -/
structure Storage where
  token : Option String
  userJson : Option String
deriving DecidableEq, Repr

/-- api.js `setAuthToken`: a truthy token is stored under `lintiq_token`,
a falsy one (null, undefined or the empty string) removes the key. -/
def setAuthToken (token : Option String) (σ : Storage) : Storage :=
  match token with
  | some t => if t = "" then { σ with token := none } else { σ with token := some t }
  | none => { σ with token := none }

/-- api.js `getAuthToken`: read the stored bearer token. -/
def getAuthToken (σ : Storage) : Option String := σ.token

/-- api.js `setUser`: a truthy user object is stored JSON-serialized under
`lintiq_user` (objects are always truthy in JavaScript), null/undefined
removes the key. -/
def setUser (u : Option UserProfile) (σ : Storage) : Storage :=
  match u with
  | some usr => { σ with userJson := some (stringifyUser usr) }
  | none => { σ with userJson := none }

/-- api.js `getUser`: null when the key is absent or holds the (falsy)
empty string; otherwise JSON.parse of the stored snapshot. -/
def getUser (σ : Storage) : Option UserProfile :=
  match σ.userJson with
  | some s => if s = "" then none else parseUser s
  | none => none

/-- api.js `clearAuth`: remove both keys. -/
def clearAuth (σ : Storage) : Storage := { σ with token := none, userJson := none }

/-! ### The axios instance and its interceptors -/

/-- The parts of an outgoing request configuration the wrapper determines:
the axios instance fixes base URL `/api`, a 30000 ms timeout and a JSON
content type; per-endpoint builders fix method, url and possibly an
overriding content type. -/
structure RequestConfig where
  method : String
  url : String
  timeoutMs : Nat
  contentType : String
  authorization : Option String
deriving DecidableEq, Repr

/-- api.js request interceptor: a truthy stored token is attached as a
bearer Authorization header; otherwise the configuration passes through
unchanged. -/
def requestInterceptor (σ : Storage) (cfg : RequestConfig) : RequestConfig :=
  match getAuthToken σ with
  | some t =>
    if t = "" then cfg else { cfg with authorization := some ("Bearer " ++ t) }
  | none => cfg

/-- The browser state the response interceptor acts on: the two storage
keys and the window location. -/
structure Browser where
  storage : Storage
  href : String
deriving DecidableEq, Repr

/-- An axios rejection: either an HTTP error response (status and an
optional JSON payload with an optional `error` field), or a network
failure with no response attached. -/
inductive AxiosError where
  | http (status : Nat) (payload : Option (Option String))
  | network
deriving DecidableEq, Repr

/-- JavaScript `error.response?.status`. -/
def statusOf : AxiosError → Option Nat
  | .http s _ => some s
  | .network => none

/-- JavaScript `error.response?.data?.error`. -/
def errMsgOf : AxiosError → Option String
  | .http _ p => p.bind id
  | .network => none

/-- JavaScript `o || fallback` on an optional string: the fallback is used
when the value is absent or the (falsy) empty string. -/
def orElseStr (o : Option String) (fallback : String) : String :=
  match o with
  | some s => if s = "" then fallback else s
  | none => fallback

/-- api.js response interceptor, error branch: a 401 status removes both
storage keys and hard-redirects to the login view; every other rejection
leaves the browser untouched.  The rejection itself is returned unchanged
(`Promise.reject(error)`), modelling propagation to the caller after the
side effects. -/
def responseErrorInterceptor (b : Browser) (e : AxiosError) : Browser × AxiosError :=
  if statusOf e = some 401 then
    let cleared : Storage := { b.storage with token := none, userJson := none }
    ({ b with storage := cleared, href := "/login" }, e)
  else (b, e)

/-- A settled axios call: resolved with response data, or rejected. -/
inductive AxiosResult (α : Type) where
  | ok (data : α)
  | err (e : AxiosError)
deriving DecidableEq, Repr

/-- The network calls the embedded handlers can issue, recorded as an
explicit trace. -/
inductive ApiCall where
  | authRegister
  | authLogin
  | authDemo
  | authVerify
  | authLogout
  | analysisAnalyze (files : List String) (use_ai : Bool)
  | analysisDemo
  | paymentsSimulatePurchase (package_id : Nat)
  | paymentsGetPackages
deriving DecidableEq, Repr

/-- Request configuration built by `analysis.demoAnalysis`:
`api.post('/analysis/demo')` on the instance with base URL `/api`. -/
def demoAnalysisConfig : RequestConfig :=
  { method := "POST", url := "/api/analysis/demo", timeoutMs := 30000,
    contentType := "application/json", authorization := none }

/-! ### The authentication context (AuthContext.jsx) -/

/-- Response data of the auth endpoints as the context reads it: the
`success` flag and the optional `token`, `user` and `error` fields
(absent fields are `none`). -/
structure AuthData where
  success : Bool
  token : Option String
  user : Option UserProfile
  error : Option String
deriving DecidableEq, Repr

/-- The React state held by the provider: `user`, `loading`,
`isAuthenticated`. -/
structure AuthState where
  user : Option UserProfile
  loading : Bool
  isAuthenticated : Bool
deriving DecidableEq, Repr

/-- The JavaScript value a context operation hands back to its caller:
nothing (undefined), a user value, or a structured outcome object
`\x7b success, error?, user? \x7d`. -/
inductive OpReturn where
  | undef
  | userVal (u : Option UserProfile)
  | outcome (success : Bool) (error : Option String) (user : Option UserProfile)
deriving DecidableEq, Repr

/-- Whether a returned value is a structured success/failure outcome. -/
def isStructuredOutcome : OpReturn → Bool
  | .outcome _ _ _ => true
  | _ => false

/-- AuthContext `login`: on a resolved response with `success` the token
and user are persisted, the state user is set and the flag raised, and
`\x7b success: true, user \x7d` is returned; on a resolved failure the
backend `error` field is returned as-is; on a rejection the message is
`error.response?.data?.error || 'Login failed'`.  The `finally` clause
leaves `loading` false. -/
def login (auth : AuthState) (σ : Storage) (res : AxiosResult AuthData) :
    AuthState × Storage × OpReturn :=
  match res with
  | .ok d =>
    if d.success then
      ({ user := d.user, loading := false, isAuthenticated := true },
       setUser d.user (setAuthToken d.token σ),
       .outcome true none d.user)
    else
      ({ auth with loading := false }, σ, .outcome false d.error none)
  | .err e =>
    ({ auth with loading := false }, σ,
     .outcome false (some (orElseStr (errMsgOf e) "Login failed")) none)

/-- AuthContext `register`: structurally identical to `login` with the
fallback message for a rejected call being `Registration failed`. -/
def register (auth : AuthState) (σ : Storage) (res : AxiosResult AuthData) :
    AuthState × Storage × OpReturn :=
  match res with
  | .ok d =>
    if d.success then
      ({ user := d.user, loading := false, isAuthenticated := true },
       setUser d.user (setAuthToken d.token σ),
       .outcome true none d.user)
    else
      ({ auth with loading := false }, σ, .outcome false d.error none)
  | .err e =>
    ({ auth with loading := false }, σ,
     .outcome false (some (orElseStr (errMsgOf e) "Registration failed")) none)

/-- AuthContext `demoLogin`: structurally identical to `login` with the
fallback message for a rejected call being `Demo login failed`. -/
def demoLogin (auth : AuthState) (σ : Storage) (res : AxiosResult AuthData) :
    AuthState × Storage × OpReturn :=
  match res with
  | .ok d =>
    if d.success then
      ({ user := d.user, loading := false, isAuthenticated := true },
       setUser d.user (setAuthToken d.token σ),
       .outcome true none d.user)
    else
      ({ auth with loading := false }, σ, .outcome false d.error none)
  | .err e =>
    ({ auth with loading := false }, σ,
     .outcome false (some (orElseStr (errMsgOf e) "Demo login failed")) none)

/-- AuthContext `logout`: the server call's outcome is irrelevant (a
rejection is only logged); the `finally` clause unconditionally clears
both storage keys, resets the state user and lowers the flag.  Nothing is
returned. -/
def logout (auth : AuthState) (σ : Storage) (_res : AxiosResult AuthData) :
    AuthState × Storage × OpReturn :=
  ({ user := none, loading := auth.loading, isAuthenticated := false },
   clearAuth σ, .undef)

/-- AuthContext `initializeAuth`: with no (truthy) cached profile nothing
happens; with one, the stored credential is revalidated against
`auth.verify` — success adopts the verified user, failure or rejection
clears the stored keys.  `loading` ends false; nothing is returned. -/
def initAuth (auth : AuthState) (σ : Storage) (res : AxiosResult AuthData) :
    AuthState × Storage × OpReturn :=
  match getUser σ with
  | some _ =>
    match res with
    | .ok d =>
      if d.success then
        ({ user := d.user, loading := false, isAuthenticated := true }, σ, .undef)
      else
        ({ auth with loading := false }, clearAuth σ, .undef)
    | .err _ =>
      ({ auth with loading := false }, clearAuth σ, .undef)
  | none => ({ auth with loading := false }, σ, .undef)

/-- AuthContext `updateUser`: persist and adopt the given user. -/
def updateUser (auth : AuthState) (σ : Storage) (u : UserProfile) : AuthState × Storage :=
  ({ auth with user := some u }, setUser (some u) σ)

/-- AuthContext `refreshUser`: on a successful verify response the returned
user is persisted, adopted and returned; otherwise (resolved failure or
rejection) state is untouched and the current user is returned. -/
def refreshUser (auth : AuthState) (σ : Storage) (res : AxiosResult AuthData) :
    AuthState × Storage × OpReturn :=
  match res with
  | .ok d =>
    if d.success then
      ({ auth with user := d.user }, setUser d.user σ, .userVal d.user)
    else (auth, σ, .userVal auth.user)
  | .err _ => (auth, σ, .userVal auth.user)

/-! ### The dashboard view (Dashboard.jsx) -/

/-- Response data of an analyze/demo-analyze call as the dashboard reads
it: the `success` flag, the optional `error` field, and the result fields
the view renders. -/
structure AnalysisData where
  success : Bool
  error : Option String
  is_demo : Bool
  files_analyzed : Nat
  total_issues : Nat
deriving DecidableEq, Repr

/-- Response data of a simulate-purchase call. -/
structure PurchaseData where
  success : Bool
  credits_added : Nat
deriving DecidableEq, Repr

/-- A credit package as listed in the sidebar. -/
structure CreditPackage where
  id : Nat
  name : String
  price_display : String
deriving DecidableEq, Repr

/-- The React state of the dashboard component.  Selected files are kept
by name; `error := none` models `setError(undefined)`, `some ""` the
initial falsy empty string. -/
structure DashState where
  files : List String
  analyzing : Bool
  analysisResult : Option AnalysisData
  error : Option String
  creditPackages : List CreditPackage
  loadingPackages : Bool
deriving DecidableEq, Repr

/-- Whether the error alert is rendered: `\x7berror && ...\x7d`, so
undefined and the empty string are not displayed. -/
def errorDisplayed (st : DashState) : Bool :=
  match st.error with
  | some s => if s = "" then false else true
  | none => false

/-- Whether the results card is rendered: `\x7banalysisResult && ...\x7d`. -/
def resultDisplayed (st : DashState) : Bool := st.analysisResult.isSome

/-- Dashboard `handleFileSelect`: adopt the files chosen in the picker,
reset the error to the empty string and drop any previous result. -/
def handleFileSelect (st : DashState) (selectedFiles : List String) : DashState :=
  { st with files := selectedFiles, error := some "", analysisResult := none }

/-- Dashboard `handleDrop`: adopt the dropped files, reset the error to
the empty string and drop any previous result. -/
def handleDrop (st : DashState) (droppedFiles : List String) : DashState :=
  { st with files := droppedFiles, error := some "", analysisResult := none }

/-- Dashboard `handleAnalyze`.  With no selected files only the validation
error is set and no call is issued.  Otherwise the analyze call is issued
with `use_ai` from `user?.is_pro`; on success the result is adopted and
`refreshUser` runs (issuing a verify call whose settled outcome is
`resV`); on a resolved failure the backend `error` field is adopted
as-is; on a rejection a 402 status yields the insufficient-credits
message and anything else `error.response?.data?.error || 'Analysis
failed. Please try again.'`.  The `finally` clause leaves `analyzing`
false. -/
def handleAnalyze (st : DashState) (auth : AuthState) (σ : Storage)
    (resA : AxiosResult AnalysisData) (resV : AxiosResult AuthData) :
    DashState × AuthState × Storage × List ApiCall :=
  if st.files = [] then
    ({ st with error := some "Please select files to analyze" }, auth, σ, [])
  else
    let use_ai := match auth.user with
      | some u => u.is_pro
      | none => false
    match resA with
    | .ok d =>
      if d.success then
        let (auth2, σ2, _) := refreshUser auth σ resV
        ({ st with analysisResult := some d, error := some "", analyzing := false },
         auth2, σ2, [.analysisAnalyze st.files use_ai, .authVerify])
      else
        ({ st with error := d.error, analyzing := false }, auth, σ,
         [.analysisAnalyze st.files use_ai])
    | .err e =>
      if statusOf e = some 402 then
        ({ st with
           error := some "Insufficient credits. Please purchase more credits to continue.",
           analyzing := false }, auth, σ, [.analysisAnalyze st.files use_ai])
      else
        ({ st with
           error := some (orElseStr (errMsgOf e) "Analysis failed. Please try again."),
           analyzing := false }, auth, σ, [.analysisAnalyze st.files use_ai])

/-- Dashboard `handleDemoAnalysis`: unconditionally issues the demo call
(no credential is consulted); success adopts the result, a resolved
failure adopts the backend `error` field, a rejection sets the fixed demo
failure message.  The `finally` clause leaves `analyzing` false. -/
def handleDemoAnalysis (st : DashState) (res : AxiosResult AnalysisData) :
    DashState × List ApiCall :=
  match res with
  | .ok d =>
    if d.success then
      ({ st with analysisResult := some d, error := some "", analyzing := false },
       [.analysisDemo])
    else
      ({ st with error := d.error, analyzing := false }, [.analysisDemo])
  | .err _ =>
    ({ st with
       error := some "Demo analysis failed. Please try again.",
       analyzing := false }, [.analysisDemo])

/-- Dashboard `handlePurchaseCredits`: a resolved response with `success`
triggers a profile refresh and an acknowledgement alert; a resolved
response without `success` does nothing at all; only a rejection sets the
purchase error message.  The returned string list is the alerts shown. -/
def handlePurchaseCredits (st : DashState) (auth : AuthState) (σ : Storage)
    (packageId : Nat) (res : AxiosResult PurchaseData) (resV : AxiosResult AuthData) :
    DashState × AuthState × Storage × List ApiCall × List String :=
  match res with
  | .ok d =>
    if d.success then
      let (auth2, σ2, _) := refreshUser auth σ resV
      (st, auth2, σ2, [.paymentsSimulatePurchase packageId, .authVerify],
       ["Successfully added " ++ toString d.credits_added ++ " credits!"])
    else
      (st, auth, σ, [.paymentsSimulatePurchase packageId], [])
  | .err _ =>
    ({ st with error := some "Purchase failed. Please try again." }, auth, σ,
     [.paymentsSimulatePurchase packageId], [])

/-! ### Shared auxiliary facts and concrete example states -/

theorem stringifyUser_ne_empty (u : UserProfile) : stringifyUser u ≠ "" := by
  intro h
  have hd : userChars u = [] := congrArg String.data h
  have h3 : (userChars u).head? = some '\x7b' := rfl
  rw [hd] at h3
  simp at h3

/-- Example profile used to instantiate witnesses. -/
def uEx : UserProfile :=
  { username := "demo", email := "demo@lintiq.com", credits := 100, is_pro := false,
    analyses_count := 3, total_spent := 0, created_at := "2024-01-01" }

/-- Example storage holding a credential and a profile snapshot. -/
def storEx : Storage := { token := some "tok123", userJson := some (stringifyUser uEx) }

/-- Example authenticated session state. -/
def authEx : AuthState := { user := some uEx, loading := false, isAuthenticated := true }

/-- Example dashboard state with no files selected. -/
def dashEx : DashState :=
  { files := [], analyzing := false, analysisResult := none, error := some "",
    creditPackages := [], loadingPackages := false }

/-- Example dashboard state with one selected file. -/
def dashFilesEx : DashState := { dashEx with files := ["main.py"] }

/-- Example successful analysis response. -/
def aDataEx : AnalysisData :=
  { success := true, error := none, is_demo := false, files_analyzed := 1,
    total_issues := 2 }

/-- Example successful auth response carrying a token and a user. -/
def authDataEx : AuthData :=
  { success := true, token := some "tok123", user := some uEx, error := none }

/-! ### Claim theorems -/

/-- Claim C1: every rejection with status 401 received through the client
wrapper — from any endpoint and any view — clears both storage keys
(`lintiq_token` and `lintiq_user`) and redirects to the login view, with
the rejection then propagated unchanged to the caller; the handling is
idempotent under repeated 401s; every rejection with any other status
propagates unchanged with the browser state untouched. -/
theorem c1_response_interceptor_401 (b : Browser) (e : AxiosError) :
    (statusOf e = some 401 →
      (responseErrorInterceptor b e).1.storage.token = none ∧
      (responseErrorInterceptor b e).1.storage.userJson = none ∧
      (responseErrorInterceptor b e).1.href = "/login" ∧
      (responseErrorInterceptor b e).2 = e ∧
      responseErrorInterceptor (responseErrorInterceptor b e).1 e
        = responseErrorInterceptor b e) ∧
    (statusOf e ≠ some 401 →
      (responseErrorInterceptor b e).1 = b ∧ (responseErrorInterceptor b e).2 = e) := by
  constructor
  · intro h
    simp [responseErrorInterceptor, h]
  · intro h
    simp [responseErrorInterceptor, h]

/-- Claim C1 witness at a concrete 401 rejection. -/
theorem c1_witness :
    (responseErrorInterceptor ⟨storEx, "/dashboard"⟩ (.http 401 none)).1.storage.token = none ∧
    (responseErrorInterceptor ⟨storEx, "/dashboard"⟩ (.http 401 none)).1.storage.userJson = none ∧
    (responseErrorInterceptor ⟨storEx, "/dashboard"⟩ (.http 401 none)).1.href = "/login" :=
  ⟨((c1_response_interceptor_401 ⟨storEx, "/dashboard"⟩ (.http 401 none)).1 rfl).1,
   ((c1_response_interceptor_401 ⟨storEx, "/dashboard"⟩ (.http 401 none)).1 rfl).2.1,
   ((c1_response_interceptor_401 ⟨storEx, "/dashboard"⟩ (.http 401 none)).1 rfl).2.2.1⟩

/-- Claim C2: after a login, registration or demo-login whose resolved
response has `success` and carries a (truthy) token and a user, the stored
credential and stored profile snapshot are present and non-empty and the
authenticated flag is true; after a logout both stored keys are cleared
and the flag is false, whatever the server call's outcome was. -/
theorem c2_session_persistence (auth : AuthState) (σ : Storage) (d : AuthData)
    (t : String) (u : UserProfile) (res : AxiosResult AuthData) :
    (d.success = true → d.token = some t → t ≠ "" → d.user = some u →
      ((login auth σ (.ok d)).2.1.token = some t ∧
       (login auth σ (.ok d)).2.1.userJson = some (stringifyUser u) ∧
       stringifyUser u ≠ "" ∧
       (login auth σ (.ok d)).1.isAuthenticated = true) ∧
      ((register auth σ (.ok d)).2.1.token = some t ∧
       (register auth σ (.ok d)).2.1.userJson = some (stringifyUser u) ∧
       (register auth σ (.ok d)).1.isAuthenticated = true) ∧
      ((demoLogin auth σ (.ok d)).2.1.token = some t ∧
       (demoLogin auth σ (.ok d)).2.1.userJson = some (stringifyUser u) ∧
       (demoLogin auth σ (.ok d)).1.isAuthenticated = true)) ∧
    ((logout auth σ res).2.1.token = none ∧
     (logout auth σ res).2.1.userJson = none ∧
     (logout auth σ res).1.isAuthenticated = false) := by
  constructor
  · intro hs ht hne hu
    refine ⟨⟨?_, ?_, stringifyUser_ne_empty u, ?_⟩, ⟨?_, ?_, ?_⟩, ⟨?_, ?_, ?_⟩⟩ <;>
      simp [login, register, demoLogin, hs, ht, hne, hu, setUser, setAuthToken]
  · exact ⟨rfl, rfl, rfl⟩

/-- Claim C2 witness at a concrete successful login and a concrete logout. -/
theorem c2_witness :
    (login ⟨none, true, false⟩ ⟨none, none⟩ (.ok authDataEx)).2.1.token = some "tok123" ∧
    (login ⟨none, true, false⟩ ⟨none, none⟩ (.ok authDataEx)).1.isAuthenticated = true ∧
    (logout authEx storEx (.ok authDataEx)).2.1.token = none ∧
    (logout authEx storEx (.ok authDataEx)).1.isAuthenticated = false :=
  ⟨(((c2_session_persistence ⟨none, true, false⟩ ⟨none, none⟩ authDataEx "tok123" uEx
      (.ok authDataEx)).1 rfl rfl (by decide) rfl).1).1,
   (((c2_session_persistence ⟨none, true, false⟩ ⟨none, none⟩ authDataEx "tok123" uEx
      (.ok authDataEx)).1 rfl rfl (by decide) rfl).1).2.2.2,
   ((c2_session_persistence authEx storEx authDataEx "tok123" uEx (.ok authDataEx)).2).1,
   ((c2_session_persistence authEx storEx authDataEx "tok123" uEx (.ok authDataEx)).2).2.2⟩

/-- Claim C3 counterexample: `logout` hands back nothing (undefined), which
is not a structured success/failure outcome, so it is false that every
session operation reports a structured success/failure outcome with an
extracted error message. -/
theorem c3_counterexample :
    (logout authEx storEx (.ok authDataEx)).2.2 = OpReturn.undef ∧
    isStructuredOutcome OpReturn.undef = false :=
  ⟨rfl, rfl⟩

/-- Claim C3 (amended): none of the six session operations throws past its
own boundary (each is a total function on settled call outcomes), and
`login`, `register` and `demoLogin` report a structured success/failure
outcome — on a resolved failure the backend `error` field is passed
through as-is (possibly absent, with no fallback), and on a rejected call
the message is extracted from the rejection with a per-operation generic
fallback when absent or empty — while `logout` and `initializeAuth`
return nothing and `refreshUser` returns a user value. -/
theorem c3_structured_outcomes (auth : AuthState) (σ : Storage) (res : AxiosResult AuthData) :
    (∀ d, res = .ok d → d.success = true →
      (login auth σ res).2.2 = .outcome true none d.user ∧
      (register auth σ res).2.2 = .outcome true none d.user ∧
      (demoLogin auth σ res).2.2 = .outcome true none d.user) ∧
    (∀ d, res = .ok d → d.success = false →
      (login auth σ res).2.2 = .outcome false d.error none ∧
      (register auth σ res).2.2 = .outcome false d.error none ∧
      (demoLogin auth σ res).2.2 = .outcome false d.error none) ∧
    (∀ e, res = .err e →
      (login auth σ res).2.2
        = .outcome false (some (orElseStr (errMsgOf e) "Login failed")) none ∧
      (register auth σ res).2.2
        = .outcome false (some (orElseStr (errMsgOf e) "Registration failed")) none ∧
      (demoLogin auth σ res).2.2
        = .outcome false (some (orElseStr (errMsgOf e) "Demo login failed")) none) ∧
    isStructuredOutcome (login auth σ res).2.2 = true ∧
    isStructuredOutcome (register auth σ res).2.2 = true ∧
    isStructuredOutcome (demoLogin auth σ res).2.2 = true ∧
    (logout auth σ res).2.2 = .undef ∧
    (initAuth auth σ res).2.2 = .undef ∧
    (∃ v, (refreshUser auth σ res).2.2 = .userVal v) := by
  refine ⟨?_, ?_, ?_, ?_, ?_, ?_, rfl, ?_, ?_⟩
  · intro d h hs
    subst h
    exact ⟨by simp [login, hs], by simp [register, hs], by simp [demoLogin, hs]⟩
  · intro d h hs
    subst h
    exact ⟨by simp [login, hs], by simp [register, hs], by simp [demoLogin, hs]⟩
  · intro e h
    subst h
    exact ⟨rfl, rfl, rfl⟩
  · cases res with
    | ok d =>
      by_cases hs : d.success <;> simp [login, isStructuredOutcome, hs]
    | err e => rfl
  · cases res with
    | ok d =>
      by_cases hs : d.success <;> simp [register, isStructuredOutcome, hs]
    | err e => rfl
  · cases res with
    | ok d =>
      by_cases hs : d.success <;> simp [demoLogin, isStructuredOutcome, hs]
    | err e => rfl
  · cases res with
    | ok d =>
      by_cases hs : d.success <;> simp [initAuth, hs] <;> cases getUser σ <;> simp [hs]
    | err e => cases hg : getUser σ <;> simp [initAuth, hg]
  · cases res with
    | ok d =>
      by_cases hs : d.success
      · exact ⟨d.user, by simp [refreshUser, hs]⟩
      · exact ⟨auth.user, by simp [refreshUser, hs]⟩
    | err e => exact ⟨auth.user, rfl⟩

/-- Claim C3 witness at a concrete rejected login carrying no message. -/
theorem c3_witness :
    (login authEx storEx (.err .network)).2.2
      = OpReturn.outcome false (some "Login failed") none :=
  (((c3_structured_outcomes authEx storEx (.err .network)).2.2.1) .network rfl).1

/-- Claim C4: requesting analysis with an empty selected file set issues no
network call, sets exactly the select-files validation message, and leaves
every other component of the dashboard, session and storage state
unchanged. -/
theorem c4_analyze_empty (st : DashState) (auth : AuthState) (σ : Storage)
    (resA : AxiosResult AnalysisData) (resV : AxiosResult AuthData)
    (h : st.files = []) :
    handleAnalyze st auth σ resA resV
      = ({ st with error := some "Please select files to analyze" }, auth, σ, []) := by
  simp [handleAnalyze, h]

/-- Claim C4 witness at a concrete empty-file dashboard state. -/
theorem c4_witness :
    handleAnalyze dashEx authEx storEx (.ok aDataEx) (.ok authDataEx)
      = ({ dashEx with error := some "Please select files to analyze" },
         authEx, storEx, []) :=
  c4_analyze_empty dashEx authEx storEx (.ok aDataEx) (.ok authDataEx) rfl

/-- Claim C5: selecting a file set via the picker or via drag-and-drop
adopts exactly the new set and always clears any displayed analysis
result and any displayed error message. -/
theorem c5_select_clears (st : DashState) (fs : List String) :
    (handleFileSelect st fs).files = fs ∧
    (handleFileSelect st fs).analysisResult = none ∧
    resultDisplayed (handleFileSelect st fs) = false ∧
    errorDisplayed (handleFileSelect st fs) = false ∧
    (handleDrop st fs).files = fs ∧
    (handleDrop st fs).analysisResult = none ∧
    resultDisplayed (handleDrop st fs) = false ∧
    errorDisplayed (handleDrop st fs) = false := by
  refine ⟨rfl, rfl, rfl, ?_, rfl, rfl, rfl, ?_⟩ <;>
    simp [handleFileSelect, handleDrop, errorDisplayed]

/-- Claim C6 counterexample: a non-402 analysis failure whose backend
payload carries exactly the insufficient-credits text displays that same
text, so the 402 message is not distinct from the message of every other
analysis failure. -/
theorem c6_counterexample :
    statusOf (AxiosError.http 500 (some (some
      "Insufficient credits. Please purchase more credits to continue."))) ≠ some 402 ∧
    (handleAnalyze dashFilesEx authEx storEx
      (.err (.http 500 (some (some
        "Insufficient credits. Please purchase more credits to continue."))))
      (.ok authDataEx)).1.error
      = some "Insufficient credits. Please purchase more credits to continue." := by
  constructor
  · decide
  · rfl

/-- Claim C6 (amended): an analysis request failing with status 402
displays exactly the insufficient-credits message; that message differs
from the generic fallback displayed for any other rejection without a
backend message; a non-402 rejection displays the backend-provided
message when present (which may coincide with the insufficient-credits
text), the generic fallback otherwise. -/
theorem c6_insufficient_message (st : DashState) (auth : AuthState) (σ : Storage)
    (e : AxiosError) (resV : AxiosResult AuthData) (hf : st.files ≠ []) :
    (statusOf e = some 402 →
      (handleAnalyze st auth σ (.err e) resV).1.error
        = some "Insufficient credits. Please purchase more credits to continue.") ∧
    (statusOf e ≠ some 402 →
      (handleAnalyze st auth σ (.err e) resV).1.error
        = some (orElseStr (errMsgOf e) "Analysis failed. Please try again.")) ∧
    ("Insufficient credits. Please purchase more credits to continue." : String)
      ≠ "Analysis failed. Please try again." ∧
    (statusOf e ≠ some 402 → errMsgOf e = none →
      (handleAnalyze st auth σ (.err e) resV).1.error
        = some "Analysis failed. Please try again.") := by
  refine ⟨?_, ?_, by decide, ?_⟩
  · intro h
    simp [handleAnalyze, hf, h]
  · intro h
    simp [handleAnalyze, hf, h]
  · intro h hm
    simp [handleAnalyze, hf, h, hm, orElseStr]

/-- Claim C6 witness at a concrete 402 rejection. -/
theorem c6_witness :
    (handleAnalyze dashFilesEx authEx storEx (.err (.http 402 none)) (.ok authDataEx)).1.error
      = some "Insufficient credits. Please purchase more credits to continue." :=
  (c6_insufficient_message dashFilesEx authEx storEx (.http 402 none) (.ok authDataEx)
    (by decide)).1 rfl

/-- Claim C7: every outgoing request receives the stored bearer credential
in its Authorization header when a (truthy) credential is stored, and
passes through the wrapper entirely unchanged when no credential is
stored. -/
theorem c7_bearer_attachment (σ : Storage) (cfg : RequestConfig) (t : String) :
    (σ.token = some t → t ≠ "" →
      (requestInterceptor σ cfg).authorization = some ("Bearer " ++ t)) ∧
    (σ.token = none → requestInterceptor σ cfg = cfg) := by
  constructor
  · intro h hne
    simp [requestInterceptor, getAuthToken, h, hne]
  · intro h
    simp [requestInterceptor, getAuthToken, h]

/-- Claim C7 witness at a stored credential and at empty storage. -/
theorem c7_witness :
    (requestInterceptor storEx demoAnalysisConfig).authorization = some "Bearer tok123" ∧
    requestInterceptor ⟨none, none⟩ demoAnalysisConfig = demoAnalysisConfig :=
  ⟨(c7_bearer_attachment storEx demoAnalysisConfig "tok123").1 rfl (by decide),
   (c7_bearer_attachment ⟨none, none⟩ demoAnalysisConfig "tok123").2 rfl⟩

/-- Claim C8: the demo analysis handler issues its request unconditionally
(it consults no stored credential) and displays the result on a
successful response; the request it issues is well-formed — POST to
`/api/analysis/demo` — and carries no Authorization header when no
credential is stored. -/
theorem c8_demo_no_credential (st : DashState) (d : AnalysisData)
    (res : AxiosResult AnalysisData) (σ : Storage) :
    (d.success = true →
      (handleDemoAnalysis st (.ok d)).1.analysisResult = some d ∧
      resultDisplayed (handleDemoAnalysis st (.ok d)).1 = true) ∧
    (handleDemoAnalysis st res).2 = [ApiCall.analysisDemo] ∧
    (σ.token = none → requestInterceptor σ demoAnalysisConfig = demoAnalysisConfig) ∧
    demoAnalysisConfig.authorization = none ∧
    demoAnalysisConfig.method = "POST" ∧
    demoAnalysisConfig.url = "/api/analysis/demo" := by
  refine ⟨?_, ?_, ?_, rfl, rfl, rfl⟩
  · intro h
    constructor <;> simp [handleDemoAnalysis, h, resultDisplayed]
  · cases res with
    | ok d2 => by_cases hs : d2.success <;> simp [handleDemoAnalysis, hs]
    | err e => rfl
  · intro h
    simp [requestInterceptor, getAuthToken, h]

/-- Claim C8 witness at a concrete successful demo response and empty
storage. -/
theorem c8_witness :
    (handleDemoAnalysis dashEx (.ok aDataEx)).1.analysisResult = some aDataEx ∧
    (handleDemoAnalysis dashEx (.ok aDataEx)).2 = [ApiCall.analysisDemo] ∧
    requestInterceptor ⟨none, none⟩ demoAnalysisConfig = demoAnalysisConfig :=
  ⟨((c8_demo_no_credential dashEx aDataEx (.ok aDataEx) ⟨none, none⟩).1 rfl).1,
   (c8_demo_no_credential dashEx aDataEx (.ok aDataEx) ⟨none, none⟩).2.1,
   (c8_demo_no_credential dashEx aDataEx (.ok aDataEx) ⟨none, none⟩).2.2.1 rfl⟩

/-- Claim C9: the profile-snapshot storage helpers round-trip — after
`setUser u` with a non-null profile, `getUser` returns the JSON round-trip
of `u` (which equals `u`); after `setUser null` or `clearAuth`, `getUser`
returns null. -/
theorem c9_user_roundtrip (u : UserProfile) (σ : Storage) :
    getUser (setUser (some u) σ) = parseUser (stringifyUser u) ∧
    parseUser (stringifyUser u) = some u ∧
    getUser (setUser none σ) = none ∧
    getUser (clearAuth σ) = none := by
  refine ⟨?_, parseUser_stringifyUser u, rfl, rfl⟩
  simp [getUser, setUser, stringifyUser_ne_empty u]

/-- Claim C10: a credit-purchase attempt whose simulate call resolves with
`success` false performs no refresh, shows no acknowledgement, sets no
error and leaves all state unchanged; a resolved call never changes the
dashboard state at all; only a rejected call sets the purchase error
message. -/
theorem c10_purchase_noop (st : DashState) (auth : AuthState) (σ : Storage)
    (pid : Nat) (d : PurchaseData) (resV : AxiosResult AuthData) (e : AxiosError) :
    (d.success = false →
      handlePurchaseCredits st auth σ pid (.ok d) resV
        = (st, auth, σ, [.paymentsSimulatePurchase pid], [])) ∧
    (∀ d2 : PurchaseData, (handlePurchaseCredits st auth σ pid (.ok d2) resV).1 = st) ∧
    (handlePurchaseCredits st auth σ pid (.err e) resV).1.error
      = some "Purchase failed. Please try again." := by
  refine ⟨?_, ?_, rfl⟩
  · intro h
    simp [handlePurchaseCredits, h]
  · intro d2
    by_cases hs : d2.success
    · rcases h2 : refreshUser auth σ resV with ⟨a2, s2, r2⟩
      simp [handlePurchaseCredits, hs, h2]
    · simp [handlePurchaseCredits, hs]

/-- Claim C10 witness at a concrete resolved-but-unsuccessful purchase and
a concrete rejected purchase. -/
theorem c10_witness :
    handlePurchaseCredits dashEx authEx storEx 1 (.ok ⟨false, 0⟩) (.ok authDataEx)
      = (dashEx, authEx, storEx, [.paymentsSimulatePurchase 1], []) ∧
    (handlePurchaseCredits dashEx authEx storEx 1 (.err .network) (.ok authDataEx)).1.error
      = some "Purchase failed. Please try again." :=
  ⟨(c10_purchase_noop dashEx authEx storEx 1 ⟨false, 0⟩ (.ok authDataEx) .network).1 rfl,
   (c10_purchase_noop dashEx authEx storEx 1 ⟨false, 0⟩ (.ok authDataEx) .network).2.2⟩

end Lintiq
